import Mathlib

/-!
Shallow embedding of `horizon/static/framework/util/validators/validators.js`.

The file defines three AngularJS form-validation behaviours:

* `validateNumberMax` / `validateNumberMin` — dynamic bound checks whose
  validator function (`maxValidator` / `minValidator`) compares the field
  value against the current value of a threshold expression and writes a
  single validity flag, returning the value unchanged;
* `notBlank` — a parser that rejects zero-length view values and withholds
  them from the model;
* `hzPasswordMatch` — a cross-field equality check (`passwordCheck`) wired
  to keyup/change events on both the dependent and the reference field.

JavaScript values are modelled by `JSValue` (undefined, null, NaN, finite
numbers as rationals, strings, booleans).  Numbers are rationals rather
than IEEE doubles: the validators only ever compare values, and on the
finite decimal inputs of interest rational and double comparison agree;
the infinities and non-decimal numeric string forms (hex, `Infinity`) are
outside the model.  Strings compare lexicographically by character, which
agrees with the UTF-16 code-unit order of JavaScript on BMP text.

The pieces of the host framework that the source calls — `angular.isDefined`,
the default `NgModelController.$isEmpty`, `$setValidity`, the parser and
formatter pipelines, `attrs.$observe` — are embedded from their AngularJS
semantics; the directive wiring is modelled as explicit step functions over
small state records, one event per framework trigger.
-/

namespace Validators

/-- JavaScript primitive values as they flow through the validators.
Finite numbers are rationals; `nan` is kept separate because it is
non-reflexive under `===` and absorbs comparisons. -/
inductive JSValue where
  | undefined
  | null
  | nan
  | num (q : ℚ)
  | str (s : String)
  | bool (b : Bool)
  deriving DecidableEq

/-- Numeric value of a digit character. -/
def digVal (c : Char) : Nat := c.toNat - 48

/-- Value of a digit string read in base 10. -/
def natOfDigits (cs : List Char) : Nat := cs.foldl (fun a c => 10 * a + digVal c) 0

/-- Optionally signed decimal integer (the exponent part of a numeric
literal); `none` when the digits are malformed. -/
def parseSignedInt (cs : List Char) : Option Int :=
  match cs with
  | '+' :: rest =>
      if rest ≠ [] ∧ rest.all Char.isDigit then some (natOfDigits rest : Int) else none
  | '-' :: rest =>
      if rest ≠ [] ∧ rest.all Char.isDigit then some (-(natOfDigits rest : Int)) else none
  | _ =>
      if cs ≠ [] ∧ cs.all Char.isDigit then some (natOfDigits cs : Int) else none

/-- Mantissa of a decimal literal: `digits`, `digits.digits`, `digits.` or
`.digits`. -/
def parseMantissa (cs : List Char) : Option ℚ :=
  match cs.span Char.isDigit with
  | (ip, []) => if ip = [] then none else some (natOfDigits ip : ℚ)
  | (ip, '.' :: fp) =>
      if fp.all Char.isDigit ∧ ¬(ip = [] ∧ fp = []) then
        some ((natOfDigits ip : ℚ) + (natOfDigits fp : ℚ) / (10 : ℚ) ^ fp.length)
      else none
  | _ => none

/-- Unsigned decimal literal with an optional exponent part. -/
def parseUnsignedDec (cs : List Char) : Option ℚ :=
  match cs.span (fun c => !(c = 'e' || c = 'E')) with
  | (man, []) => parseMantissa man
  | (man, _ :: ex) => do
      let m ← parseMantissa man
      let e ← parseSignedInt ex
      some (m * (10 : ℚ) ^ e)

/-- JavaScript `ToNumber` on a string: surrounding whitespace is ignored,
the empty string is 0, otherwise a decimal literal; anything else is NaN
(`none`).  Hex and `Infinity` forms are outside the model. -/
def strToNumber (s : String) : Option ℚ :=
  let cs :=
    ((s.toList.dropWhile Char.isWhitespace).reverse.dropWhile Char.isWhitespace).reverse
  match cs with
  | [] => some 0
  | '+' :: rest => parseUnsignedDec rest
  | '-' :: rest => (parseUnsignedDec rest).map Neg.neg
  | _ => parseUnsignedDec cs

/-- JavaScript `ToNumber`; `none` stands for NaN. -/
def toNumber : JSValue → Option ℚ
  | .undefined => none
  | .null => some 0
  | .nan => none
  | .num q => some q
  | .str s => strToNumber s
  | .bool b => some (if b then 1 else 0)

/-- Lexicographic order on character lists: the string leg of the abstract
relational comparison. -/
def strLt : List Char → List Char → Bool
  | [], [] => false
  | [], _ :: _ => true
  | _ :: _, [] => false
  | a :: as, b :: bs => if a < b then true else if b < a then false else strLt as bs

/-- JavaScript `x > y` (abstract relational comparison): string order when
both operands are strings, otherwise numeric comparison after `ToNumber`,
false when either side is NaN. -/
def jsGt (x y : JSValue) : Bool :=
  match x, y with
  | .str a, .str b => strLt b.toList a.toList
  | x, y =>
      match toNumber x, toNumber y with
      | some a, some b => decide (b < a)
      | _, _ => false

/-- JavaScript `x < y`. -/
def jsLt (x y : JSValue) : Bool :=
  match x, y with
  | .str a, .str b => strLt a.toList b.toList
  | x, y =>
      match toNumber x, toNumber y with
      | some a, some b => decide (a < b)
      | _, _ => false

/-- JavaScript strict equality `===` on the modelled values: structural
equality except that NaN is equal to nothing, itself included. -/
def jsStrictEq (x y : JSValue) : Bool :=
  match x, y with
  | .nan, _ => false
  | _, .nan => false
  | x, y => decide (x = y)

/-- JavaScript `ToBoolean` (truthiness). -/
def toBoolean : JSValue → Bool
  | .undefined => false
  | .null => false
  | .nan => false
  | .num q => decide (q ≠ 0)
  | .str s => !s.isEmpty
  | .bool b => b

/-- AngularJS `angular.isDefined`: everything but `undefined`. -/
def angularIsDefined (v : JSValue) : Bool := decide (v ≠ JSValue.undefined)

/-- Default AngularJS `NgModelController.$isEmpty`: undefined, the empty
string, null and NaN count as empty. -/
def ctrlIsEmpty : JSValue → Bool
  | .undefined => true
  | .null => true
  | .nan => true
  | .str s => s.isEmpty
  | _ => false

/-- The slice of the AngularJS `ngModel` controller the validators touch:
the current model value and the per-rule validity flags written through
`$setValidity`. -/
structure NgModelCtrl where
  modelValue : JSValue
  validity : String → Bool

/-- A controller before any validator has run: every rule starts valid. -/
def initialCtrl : NgModelCtrl :=
  { modelValue := JSValue.undefined, validity := fun _ => true }

/-- AngularJS `ctrl.$setValidity(key, b)`: update one named flag, leaving
the model value and every other flag alone. -/
def setValidity (ctrl : NgModelCtrl) (key : String) (b : Bool) : NgModelCtrl :=
  { ctrl with validity := fun k => if k = key then b else ctrl.validity k }

/-- The `maxValidator` closure of the `validateNumberMax` directive.
`maxVal` is what `scope.$eval(attrs.validateNumberMax)` currently yields;
the function writes the `validateNumberMax` flag and returns the value
rather than undefined when invalid. -/
def maxValidator (maxVal : JSValue) (ctrl : NgModelCtrl) (value : JSValue) :
    NgModelCtrl × JSValue :=
  let ctrl :=
    if angularIsDefined maxVal && !ctrlIsEmpty value && jsGt value maxVal then
      setValidity ctrl "validateNumberMax" false
    else
      setValidity ctrl "validateNumberMax" true
  (ctrl, value)

/-- The `minValidator` closure of the `validateNumberMin` directive. -/
def minValidator (minVal : JSValue) (ctrl : NgModelCtrl) (value : JSValue) :
    NgModelCtrl × JSValue :=
  let ctrl :=
    if angularIsDefined minVal && !ctrlIsEmpty value && jsLt value minVal then
      setValidity ctrl "validateNumberMin" false
    else
      setValidity ctrl "validateNumberMin" true
  (ctrl, value)

/-- State of one bound-check directive instance: the current value of the
threshold attribute expression and the field controller. -/
structure BoundState where
  exprValue : JSValue
  ctrl : NgModelCtrl

/-- The three framework triggers the bound-check directives subscribe to:
the parser pipeline (view value changed through the UI), the formatter
pipeline (model value changed programmatically), and `attrs.$observe`
firing because the threshold expression's value changed. -/
inductive BoundEvent where
  | viewChange (v : JSValue)
  | modelChange (v : JSValue)
  | exprChange (m : JSValue)

/-- One trigger of the `validateNumberMax` directive.  On a view change the
parser's return value becomes the model value; on a model change the
formatter runs on the new model value; on a threshold change the observer
re-runs the validator on `ctrl.$modelValue`, discarding the returned
value. -/
def validateNumberMaxStep (s : BoundState) : BoundEvent → BoundState
  | .viewChange v =>
      let r := maxValidator s.exprValue s.ctrl v
      { s with ctrl := { r.1 with modelValue := r.2 } }
  | .modelChange v =>
      let r := maxValidator s.exprValue { s.ctrl with modelValue := v } v
      { s with ctrl := r.1 }
  | .exprChange m =>
      let r := maxValidator m s.ctrl s.ctrl.modelValue
      { exprValue := m, ctrl := r.1 }

/-- One trigger of the `validateNumberMin` directive. -/
def validateNumberMinStep (s : BoundState) : BoundEvent → BoundState
  | .viewChange v =>
      let r := minValidator s.exprValue s.ctrl v
      { s with ctrl := { r.1 with modelValue := r.2 } }
  | .modelChange v =>
      let r := minValidator s.exprValue { s.ctrl with modelValue := v } v
      { s with ctrl := r.1 }
  | .exprChange m =>
      let r := minValidator m s.ctrl s.ctrl.modelValue
      { exprValue := m, ctrl := r.1 }

/-- The condition under which the bound-check max rule reports valid:
the negation of the source's invalidity test. -/
def maxRuleValid (maxVal value : JSValue) : Bool :=
  !(angularIsDefined maxVal && !ctrlIsEmpty value && jsGt value maxVal)

/-- The condition under which the bound-check min rule reports valid. -/
def minRuleValid (minVal value : JSValue) : Bool :=
  !(angularIsDefined minVal && !ctrlIsEmpty value && jsLt value minVal)

/-- Exceptions the embedded JavaScript can raise. -/
inductive JSError where
  | typeError (msg : String)
  deriving DecidableEq

/-- Reading `v.length`: strings expose their length, reading a property of
`undefined` or `null` throws a TypeError, and the other primitives have no
`length` property, so the read yields `undefined`. -/
def getLength : JSValue → Except JSError JSValue
  | .undefined => .error (.typeError "Cannot read properties of undefined")
  | .null => .error (.typeError "Cannot read properties of null")
  | .str s => .ok (.num (s.length : ℚ))
  | _ => .ok .undefined

/-- The parser pushed by the `notBlank` directive: `if (viewValue.length)`
set the flag true and pass the value through, else set it false and return
undefined so the model is not updated. -/
def notBlank (ctrl : NgModelCtrl) (viewValue : JSValue) :
    Except JSError (NgModelCtrl × JSValue) := do
  let len ← getLength viewValue
  if toBoolean len then
    pure (setValidity ctrl "notBlank" true, viewValue)
  else
    pure (setValidity ctrl "notBlank" false, JSValue.undefined)

/-- Whether an embedded computation completed without throwing. -/
def exceptOk {α : Type} : Except JSError α → Bool
  | .ok _ => true
  | .error _ => false

/-- State of one `hzPasswordMatch` directive instance: the dependent
(confirmation) field's controller `ctrl` and the reference (password)
field's controller `scope.pw`. -/
structure MatchScope where
  ctrl : NgModelCtrl
  pw : NgModelCtrl

/-- The `passwordCheck` helper: compare the two current model values with
`===` and set the dependent field's `match` flag to the result (the write
happens inside `scope.$apply`, which the single-threaded model leaves
implicit). -/
def passwordCheck (s : MatchScope) : MatchScope :=
  let isMatch := jsStrictEq s.ctrl.modelValue s.pw.modelValue
  { s with ctrl := setValidity s.ctrl "match" isMatch }

/-- Events in the life of a match-rule instance: the keyup/change DOM
events the directive subscribes to on either element, and the ngModel
updates that set either field's model value. -/
inductive MatchEvent where
  | pwKeyup
  | pwChange
  | elementKeyup
  | elementChange
  | setCtrlModel (v : JSValue)
  | setPwModel (v : JSValue)

/-- One event of the `hzPasswordMatch` directive: all four subscribed DOM
events run `passwordCheck`; model updates just store the new value. -/
def hzPasswordMatchStep (s : MatchScope) : MatchEvent → MatchScope
  | .pwKeyup => passwordCheck s
  | .pwChange => passwordCheck s
  | .elementKeyup => passwordCheck s
  | .elementChange => passwordCheck s
  | .setCtrlModel v => { s with ctrl := { s.ctrl with modelValue := v } }
  | .setPwModel v => { s with pw := { s.pw with modelValue := v } }

/-- Writing a flag leaves the model value alone. -/
theorem setValidity_modelValue (c : NgModelCtrl) (k : String) (b : Bool) :
    (setValidity c k b).modelValue = c.modelValue := rfl

/-- Reading back the flag just written. -/
theorem setValidity_validity_self (c : NgModelCtrl) (k : String) (b : Bool) :
    (setValidity c k b).validity k = b := by
  simp [setValidity]

/-- Closed form of `maxValidator`: one flag write plus the identity on the
value. -/
theorem maxValidator_eq (m : JSValue) (c : NgModelCtrl) (v : JSValue) :
    maxValidator m c v = (setValidity c "validateNumberMax" (maxRuleValid m v), v) := by
  unfold maxValidator maxRuleValid
  cases h : (angularIsDefined m && !ctrlIsEmpty v && jsGt v m) <;> simp [h]

/-- Closed form of `minValidator`. -/
theorem minValidator_eq (m : JSValue) (c : NgModelCtrl) (v : JSValue) :
    minValidator m c v = (setValidity c "validateNumberMin" (minRuleValid m v), v) := by
  unfold minValidator minRuleValid
  cases h : (angularIsDefined m && !ctrlIsEmpty v && jsLt v m) <;> simp [h]

/-- Claim C1: one run of the bound-check-max rule sets the
`validateNumberMax` flag to false exactly when the threshold is defined,
the value is non-empty and the value exceeds the threshold, and to true in
every other case. -/
theorem C1_maxRule_flag_iff (m : JSValue) (c : NgModelCtrl) (v : JSValue) :
    ((maxValidator m c v).1.validity "validateNumberMax" = false ↔
      angularIsDefined m = true ∧ ctrlIsEmpty v = false ∧ jsGt v m = true) ∧
    ((maxValidator m c v).1.validity "validateNumberMax" = true ↔
      angularIsDefined m = false ∨ ctrlIsEmpty v = true ∨ jsGt v m = false) := by
  rw [maxValidator_eq]
  simp only [setValidity_validity_self, maxRuleValid]
  cases angularIsDefined m <;> cases ctrlIsEmpty v <;> cases jsGt v m <;> simp

/-- Claim C2: one run of the bound-check-min rule sets the
`validateNumberMin` flag to false exactly when the threshold is defined,
the value is non-empty and the value is below the threshold, and to true
in every other case. -/
theorem C2_minRule_flag_iff (m : JSValue) (c : NgModelCtrl) (v : JSValue) :
    ((minValidator m c v).1.validity "validateNumberMin" = false ↔
      angularIsDefined m = true ∧ ctrlIsEmpty v = false ∧ jsLt v m = true) ∧
    ((minValidator m c v).1.validity "validateNumberMin" = true ↔
      angularIsDefined m = false ∨ ctrlIsEmpty v = true ∨ jsLt v m = false) := by
  rw [minValidator_eq]
  simp only [setValidity_validity_self, minRuleValid]
  cases angularIsDefined m <;> cases ctrlIsEmpty v <;> cases jsLt v m <;> simp

/-- Claim C3: on a view value of length zero the non-empty rule sets the
`notBlank` flag to false and returns undefined, withholding the value from
the model; on any other view value it sets the flag to true and returns
the value unchanged.  View values are the strings delivered by the input
element, the only modelled values carrying a `length`. -/
theorem C3_notBlank_rule (c : NgModelCtrl) (s : String) :
    notBlank c (JSValue.str s) =
      Except.ok
        (if s.length = 0 then (setValidity c "notBlank" false, JSValue.undefined)
         else (setValidity c "notBlank" true, JSValue.str s)) := by
  by_cases h : s.length = 0 <;>
    simp [notBlank, getLength, toBoolean, h, Nat.cast_eq_zero,
      Bind.bind, Except.bind, Pure.pure, Except.pure]

/-- No event of the match directive touches the reference field's validity
flags. -/
theorem hzStep_pw_validity (s : MatchScope) (e : MatchEvent) :
    (hzPasswordMatchStep s e).pw.validity = s.pw.validity := by
  cases e <;> rfl

/-- One event of the match directive leaves every dependent-field flag
other than `match` unchanged. -/
theorem hzStep_ctrl_validity (s : MatchScope) (e : MatchEvent) (k : String) :
    (hzPasswordMatchStep s e).ctrl.validity k = s.ctrl.validity k ∨ k = "match" := by
  cases e <;> try exact Or.inl rfl
  all_goals
    by_cases h : k = "match"
  all_goals
    first
    | exact Or.inr h
    | exact Or.inl (by simp [hzPasswordMatchStep, passwordCheck, setValidity, h])

/-- Claim C4: every change or keyup event on either field recomputes the
strict equality of the two current model values and writes exactly that
boolean into the dependent field's `match` flag. -/
theorem C4_passwordMatch_recompute (s : MatchScope) :
    (hzPasswordMatchStep s MatchEvent.pwKeyup).ctrl.validity "match"
        = jsStrictEq s.ctrl.modelValue s.pw.modelValue ∧
    (hzPasswordMatchStep s MatchEvent.pwChange).ctrl.validity "match"
        = jsStrictEq s.ctrl.modelValue s.pw.modelValue ∧
    (hzPasswordMatchStep s MatchEvent.elementKeyup).ctrl.validity "match"
        = jsStrictEq s.ctrl.modelValue s.pw.modelValue ∧
    (hzPasswordMatchStep s MatchEvent.elementChange).ctrl.validity "match"
        = jsStrictEq s.ctrl.modelValue s.pw.modelValue := by
  refine ⟨?_, ?_, ?_, ?_⟩ <;>
    simp [hzPasswordMatchStep, passwordCheck, setValidity]

/-- Claim C5: over every sequence of events, the match rule never modifies
any validity flag of the reference field, and the only dependent-field
flag it can ever have written is `match`. -/
theorem C5_passwordMatch_one_directional (s : MatchScope) (es : List MatchEvent) :
    (es.foldl hzPasswordMatchStep s).pw.validity = s.pw.validity ∧
    ∀ k : String,
      (es.foldl hzPasswordMatchStep s).ctrl.validity k = s.ctrl.validity k ∨ k = "match" := by
  induction es generalizing s with
  | nil => exact ⟨rfl, fun k => Or.inl rfl⟩
  | cons e es ih =>
      obtain ⟨h1, h2⟩ := ih (hzPasswordMatchStep s e)
      refine ⟨?_, ?_⟩
      · rw [List.foldl_cons, h1, hzStep_pw_validity]
      · intro k
        rcases h2 k with h | h
        · rcases hzStep_ctrl_validity s e k with h' | h'
          · exact Or.inl (by rw [List.foldl_cons, h, h'])
          · exact Or.inr h'
        · exact Or.inr h

/-- Claim C6: each of the three triggers of a bound-check directive re-runs
its validator; in particular a threshold change alone leaves the model
value fixed and makes the flag equal the comparison of that unchanged
value against the new threshold, which can flip the flag (shown on a
concrete state at the end). -/
theorem C6_boundCheck_triggers (s : BoundState) (v m : JSValue) :
    ((validateNumberMaxStep s (BoundEvent.viewChange v)).ctrl.validity "validateNumberMax"
        = maxRuleValid s.exprValue v ∧
      (validateNumberMaxStep s (BoundEvent.modelChange v)).ctrl.validity "validateNumberMax"
        = maxRuleValid s.exprValue v ∧
      (validateNumberMaxStep s (BoundEvent.exprChange m)).ctrl.modelValue
        = s.ctrl.modelValue ∧
      (validateNumberMaxStep s (BoundEvent.exprChange m)).ctrl.validity "validateNumberMax"
        = maxRuleValid m s.ctrl.modelValue) ∧
    ((validateNumberMinStep s (BoundEvent.viewChange v)).ctrl.validity "validateNumberMin"
        = minRuleValid s.exprValue v ∧
      (validateNumberMinStep s (BoundEvent.modelChange v)).ctrl.validity "validateNumberMin"
        = minRuleValid s.exprValue v ∧
      (validateNumberMinStep s (BoundEvent.exprChange m)).ctrl.modelValue
        = s.ctrl.modelValue ∧
      (validateNumberMinStep s (BoundEvent.exprChange m)).ctrl.validity "validateNumberMin"
        = minRuleValid m s.ctrl.modelValue) ∧
    ((⟨JSValue.num 10, ⟨JSValue.num 5, fun _ => true⟩⟩ : BoundState).ctrl.validity
        "validateNumberMax" = true ∧
      (validateNumberMaxStep ⟨JSValue.num 10, ⟨JSValue.num 5, fun _ => true⟩⟩
          (BoundEvent.exprChange (JSValue.num 3))).ctrl.modelValue = JSValue.num 5 ∧
      (validateNumberMaxStep ⟨JSValue.num 10, ⟨JSValue.num 5, fun _ => true⟩⟩
          (BoundEvent.exprChange (JSValue.num 3))).ctrl.validity
        "validateNumberMax" = false) := by
  refine ⟨⟨?_, ?_, ?_, ?_⟩, ⟨?_, ?_, ?_, ?_⟩, by decide, by decide, by decide⟩ <;>
    simp [validateNumberMaxStep, validateNumberMinStep, maxValidator_eq, minValidator_eq,
      setValidity_validity_self, setValidity_modelValue, setValidity]

/-- Claim C7: the bound-check validators are the identity on the value
pipeline: each returns its input value unchanged, so a view change
propagates exactly the entered value into the model even when it fails
validation. -/
theorem C7_boundCheck_identity (m : JSValue) (c : NgModelCtrl) (v : JSValue)
    (s : BoundState) :
    (maxValidator m c v).2 = v ∧ (minValidator m c v).2 = v ∧
    (validateNumberMaxStep s (BoundEvent.viewChange v)).ctrl.modelValue = v ∧
    (validateNumberMinStep s (BoundEvent.viewChange v)).ctrl.modelValue = v := by
  refine ⟨?_, ?_, ?_, ?_⟩ <;>
    simp [validateNumberMaxStep, validateNumberMinStep, maxValidator_eq, minValidator_eq]

/-- Claim C8: when the threshold expression is undefined or the field
value is empty, both bound-check rules report valid. -/
theorem C8_boundCheck_no_constraint (m : JSValue) (c : NgModelCtrl) (v : JSValue)
    (h : angularIsDefined m = false ∨ ctrlIsEmpty v = true) :
    (maxValidator m c v).1.validity "validateNumberMax" = true ∧
    (minValidator m c v).1.validity "validateNumberMin" = true := by
  rw [maxValidator_eq, minValidator_eq]
  rcases h with h | h <;>
    simp [setValidity_validity_self, maxRuleValid, minRuleValid, h]

/-- Witness for C8 at threshold undefined and value 5. -/
theorem C8_boundCheck_no_constraint_witness :
    (angularIsDefined JSValue.undefined = false ∨ ctrlIsEmpty (JSValue.num 5) = true) ∧
    ((maxValidator JSValue.undefined initialCtrl (JSValue.num 5)).1.validity
        "validateNumberMax" = true ∧
      (minValidator JSValue.undefined initialCtrl (JSValue.num 5)).1.validity
        "validateNumberMin" = true) :=
  ⟨Or.inl (by decide),
    C8_boundCheck_no_constraint JSValue.undefined initialCtrl (JSValue.num 5)
      (Or.inl (by decide))⟩

/-- Claim C9, counterexample: the non-empty rule's parser reads `.length`
off its input, so evaluating it at the undefined value raises a TypeError
rather than completing normally. -/
theorem C9_notBlank_undefined_throws :
    notBlank initialCtrl JSValue.undefined
      = Except.error (JSError.typeError "Cannot read properties of undefined") := rfl

/-- Claim C9 as amended: the bound-check rules and the match rule signal
errors only by writing one validity flag and never throw, while the
non-empty rule throws exactly on an undefined or null view value and
otherwise completes normally. -/
theorem C9_exception_profile :
    (∀ (c : NgModelCtrl) (v : JSValue),
        exceptOk (notBlank c v) = false ↔ v = JSValue.undefined ∨ v = JSValue.null) ∧
    (∀ (m : JSValue) (c : NgModelCtrl) (v : JSValue),
        ∃ b, maxValidator m c v = (setValidity c "validateNumberMax" b, v)) ∧
    (∀ (m : JSValue) (c : NgModelCtrl) (v : JSValue),
        ∃ b, minValidator m c v = (setValidity c "validateNumberMin" b, v)) ∧
    (∀ s : MatchScope, ∃ b, passwordCheck s = { s with ctrl := setValidity s.ctrl "match" b }) := by
  refine ⟨?_, fun m c v => ⟨maxRuleValid m v, maxValidator_eq m c v⟩,
    fun m c v => ⟨minRuleValid m v, minValidator_eq m c v⟩,
    fun s => ⟨jsStrictEq s.ctrl.modelValue s.pw.modelValue, rfl⟩⟩
  intro c v
  cases v <;>
    simp [notBlank, getLength, exceptOk, toBoolean, Bind.bind, Except.bind,
      Pure.pure, Except.pure, apply_ite exceptOk]
  rename_i s
  by_cases h : s.length = 0 <;> simp [h]

/-- Claim C10: `angular.isDefined` exempts only undefined, so a null
threshold is still compared — null coerces to 0 — and the max rule marks
the positive value 1 invalid against it. -/
theorem C10_null_threshold_compared :
    angularIsDefined JSValue.null = true ∧
    toNumber JSValue.null = some 0 ∧
    ∃ q : ℚ, 0 < q ∧ ctrlIsEmpty (JSValue.num q) = false ∧
      jsGt (JSValue.num q) JSValue.null = true ∧
      (maxValidator JSValue.null initialCtrl (JSValue.num q)).1.validity
        "validateNumberMax" = false :=
  ⟨by decide, rfl, 1, by norm_num, by decide, by decide, by decide⟩

end Validators
